import Mathlib

/-!
Verification of the ledger core of the Personal-Finance-Manager repository.

The embedding below translates the canonical database module
(src/database/database.py) together with the entity validators
(src/models/transaction.py, src/models/account.py) and the configuration
constants (src/config.py) into executable Lean definitions:

* SQLite REAL amounts are modelled by the rationals (the arithmetic the
  code performs is addition/subtraction/division of decimal literals);
* SQLite TEXT timestamps are modelled by strings, ordered by the
  byte-wise (BINARY collation) comparison SQLite applies to TEXT, here
  realised as lexicographic comparison of the character lists;
* one table is a list of row structures; SELECT ... fetchone() is
  List.find?, an UPDATE with a WHERE clause is a List.map that rewrites
  all matching rows, and INSERT appends a row carrying the next
  AUTOINCREMENT id;
* SQL parameters bound to Python Optional values are nullable, and a
  comparison `Column = NULL` matches no row, so the id parameters of the
  row helpers are Option-valued;
* the connection's foreign-key enforcement is OFF (the code never issues
  PRAGMA foreign_keys, and SQLite defaults to off), so inserts and
  updates naming a missing account succeed and match nothing;
* raised Python exceptions become an Except value: ValidationError and
  DatabaseError are the two exception classes the module defines, and
  the handler `raise DatabaseError(f"Failed to create transaction: {e}")`
  is a DatabaseError whose message embeds the caught exception.
-/

namespace FinanceApp

/-! ### SQLite TEXT (BINARY collation) ordering -/

/-- Lexicographic strict order on character lists, comparing code
points: the order SQLite's BINARY collation (memcmp) gives to TEXT
values built from the ASCII timestamps this application stores. -/
def lexLt : List Char → List Char → Bool
  | [], [] => false
  | [], _ :: _ => true
  | _ :: _, [] => false
  | a :: as, b :: bs => a.toNat < b.toNat || (a.toNat == b.toNat && lexLt as bs)

/-- Strict TEXT comparison `a < b`. -/
def strLt (a b : String) : Bool := lexLt a.data b.data

/-- TEXT comparison `a <= b`. -/
def strLe (a b : String) : Bool := !(strLt b a)

/-- SQLite date(X): the day part of an ISO-8601 timestamp string. -/
def sqlDate (s : String) : String := s.take 10

/-- SQLite date('now', 'start of month') for an ISO-8601 `now`:
the first day of the month `now` lies in. -/
def startOfMonth (now : String) : String := now.take 8 ++ "01"

/-! ### Configuration constants (src/config.py) -/

/-- VALIDATION['MAX_AMOUNT'] -/
def MAX_AMOUNT : ℚ := 999999999.99

/-- VALIDATION['MAX_NAME_LENGTH'] -/
def MAX_NAME_LENGTH : Nat := 100

/-- VALIDATION['MAX_DESC_LENGTH'] -/
def MAX_DESC_LENGTH : Nat := 200

/-- ACCOUNT_LIMITS['MAX_ACCOUNTS_PER_USER'] -/
def MAX_ACCOUNTS_PER_USER : Nat := 5

/-- BUDGET_CONFIG['WARNING_THRESHOLD'] -/
def WARNING_THRESHOLD : ℚ := 0.7

/-! ### Exceptions (src/models/exceptions.py, src/database/database.py)

ValidationError and DatabaseError are the two exception classes the
module raises. The ValidationError messages that create_transaction and
create_account can produce are enumerated; the two that carry amounts
keep them. -/

/-- The message of a raised ValidationError. -/
inductive VMsg where
  | amountNotPositive
  | amountTooLarge
  | invalidTransactionType
  | invalidUserId
  | invalidAccountId
  | categoryRequired
  | destinationRequired
  | transferToSameAccount
  | descriptionTooLong
  | accountNameRequired
  | accountNameTooLong
  | invalidAccountType
  | negativeBalance
  | maxAccountsExceeded (maxAllowed : Nat)
  | sourceAccountNotFound
  | insufficientBalance (available required : ℚ)
deriving DecidableEq, Repr

/-- A raised exception as the caller observes it. `databaseError inner`
is `DatabaseError(f"Failed to create transaction: {e}")`: a DatabaseError
whose message embeds the caught exception `inner`. -/
inductive PyExc where
  | validationError (msg : VMsg)
  | databaseError (inner : PyExc)
deriving DecidableEq, Repr

/-- Exception-class test: is the observed failure a DatabaseError
(the class used for generic store failures)? -/
def excIsDatabaseError : PyExc → Bool
  | .databaseError _ => true
  | .validationError _ => false

/-! ### Entity models and validators (src/models) -/

/-- Python truthiness of an optional integer field:
None and 0 are both falsy. -/
def optIdTruthy : Option Int → Bool
  | none => false
  | some x => x != 0

/-- The Transaction entity as built by a caller (src/models/transaction.py). -/
structure Transaction where
  user_id : Int
  account_id : Int
  category_id : Option Int
  amount : ℚ
  description : String
  transaction_type : String
  to_account_id : Option Int
  date_created : String
deriving DecidableEq, Repr

/-- Transaction.validate (src/models/transaction.py, lines 32-59):
the checks in source order, each raising a ValidationError. -/
def Transaction.validate (t : Transaction) : Except VMsg Unit :=
  if t.amount ≤ 0 then .error .amountNotPositive
  else if MAX_AMOUNT < t.amount then .error .amountTooLarge
  else if !(["Income", "Expense", "Transfer"].contains t.transaction_type) then
    .error .invalidTransactionType
  else if t.user_id ≤ 0 then .error .invalidUserId
  else if t.account_id ≤ 0 then .error .invalidAccountId
  else if (t.transaction_type == "Income" || t.transaction_type == "Expense")
          && !(optIdTruthy t.category_id) then .error .categoryRequired
  else if t.transaction_type == "Transfer" && !(optIdTruthy t.to_account_id) then
    .error .destinationRequired
  else if t.transaction_type == "Transfer" && t.to_account_id == some t.account_id then
    .error .transferToSameAccount
  else if t.description != "" && MAX_DESC_LENGTH < t.description.length then
    .error .descriptionTooLong
  else .ok ()

/-- Python str.strip(): the string with leading and trailing whitespace
removed. -/
def pyStrip (s : String) : String :=
  ⟨((s.data.dropWhile Char.isWhitespace).reverse.dropWhile Char.isWhitespace).reverse⟩

/-- The Account entity as built by a caller (src/models/account.py). -/
structure Account where
  user_id : Int
  name : String
  balance : ℚ
  account_type : String
deriving DecidableEq, Repr

/-- Account.validate (src/models/account.py, lines 23-37). -/
def Account.validate (a : Account) : Except VMsg Unit :=
  if a.name == "" || (pyStrip a.name).length == 0 then .error .accountNameRequired
  else if MAX_NAME_LENGTH < a.name.length then .error .accountNameTooLong
  else if !(["Bank", "Cash", "Savings"].contains a.account_type) then
    .error .invalidAccountType
  else if a.balance < 0 then .error .negativeBalance
  else if a.user_id ≤ 0 then .error .invalidUserId
  else .ok ()

/-! ### Store rows and state (schema of Database.init_database) -/

/-- A row of the Account table. -/
structure AccountRow where
  accountID : Int
  userID : Int
  name : String
  balance : ℚ
  accountType : String
deriving DecidableEq, Repr

/-- A row of the Transactions table. -/
structure TransactionRow where
  transactionID : Int
  userID : Int
  accountID : Int
  categoryID : Option Int
  amount : ℚ
  description : String
  transactionType : String
  toAccountID : Option Int
  dateCreated : String
deriving DecidableEq, Repr

/-- A row of the Category table. -/
structure CategoryRow where
  categoryID : Int
  userID : Int
  name : String
  categoryType : String
deriving DecidableEq, Repr

/-- A row of the SavingGoal table. -/
structure SavingGoalRow where
  goalID : Int
  userID : Int
  goalName : String
  targetAmount : ℚ
  currentAmount : ℚ
  accountID : Option Int
  isDefault : Bool
deriving DecidableEq, Repr

/-- A row of the Budget table. -/
structure BudgetRow where
  budgetID : Int
  userID : Int
  categoryID : Int
  budgetAmount : ℚ
  timePeriod : String
  startDate : String
  endDate : String
deriving DecidableEq, Repr

/-- The store: the tables of the SQLite database plus the AUTOINCREMENT
counters for the two tables this development inserts into. -/
structure DBState where
  accounts : List AccountRow
  categories : List CategoryRow
  transactions : List TransactionRow
  savingGoals : List SavingGoalRow
  budgets : List BudgetRow
  nextTransactionID : Int
  nextAccountID : Int
deriving DecidableEq, Repr

/-- SELECT ... FROM Account WHERE AccountID = ? with fetchone():
the first matching row; a NULL parameter matches nothing. -/
def findAccount (accounts : List AccountRow) (accId : Option Int) : Option AccountRow :=
  accounts.find? (fun a => some a.accountID == accId)

/-- UPDATE Account SET Balance = f(Balance) WHERE AccountID = ?:
rewrites every matching row; a NULL parameter matches nothing. -/
def updateBalance (accounts : List AccountRow) (accId : Option Int) (f : ℚ → ℚ) :
    List AccountRow :=
  accounts.map (fun a =>
    if some a.accountID == accId then { a with balance := f a.balance } else a)

/-! ### Ledger Writer (Database.create_transaction) and goal sync -/

/-- Database._update_saving_goal_from_account (src/database/database.py,
lines 484-500): fetch the one joined row of the goal backed by the
account, then set that goal's CurrentAmount to the account's balance. -/
def update_saving_goal_from_account (st : DBState) (accId : Option Int) : DBState :=
  match findAccount st.accounts accId,
        st.savingGoals.find? (fun g => g.accountID == accId) with
  | some a, some g =>
      { st with savingGoals := st.savingGoals.map (fun g2 =>
          if g2.goalID == g.goalID then { g2 with currentAmount := a.balance } else g2) }
  | _, _ => st

/-- The body of Database.create_transaction between BEGIN and COMMIT
(src/database/database.py, lines 424-478): the balance check for
Expense/Transfer, the ledger INSERT, the balance UPDATEs, and the goal
syncs. An error raised here is caught by the enclosing handler. -/
def create_transaction_body (st : DBState) (t : Transaction) :
    Except PyExc (Int × DBState) :=
  let check : Except PyExc Unit :=
    if t.transaction_type == "Expense" || t.transaction_type == "Transfer" then
      match findAccount st.accounts (some t.account_id) with
      | none => .error (.validationError .sourceAccountNotFound)
      | some row =>
          if row.balance < t.amount then
            .error (.validationError (.insufficientBalance row.balance t.amount))
          else .ok ()
    else .ok ()
  match check with
  | .error e => .error e
  | .ok _ =>
    let tid := st.nextTransactionID
    let newRow : TransactionRow :=
      { transactionID := tid
        userID := t.user_id
        accountID := t.account_id
        categoryID := t.category_id
        amount := t.amount
        description := t.description
        transactionType := t.transaction_type
        toAccountID := t.to_account_id
        dateCreated := t.date_created }
    let st1 : DBState :=
      { st with transactions := st.transactions ++ [newRow]
                nextTransactionID := tid + 1 }
    let st2 : DBState :=
      if t.transaction_type == "Income" then
        let sA := { st1 with
          accounts := updateBalance st1.accounts (some t.account_id) (fun b => b + t.amount) }
        update_saving_goal_from_account sA (some t.account_id)
      else if t.transaction_type == "Expense" then
        let sA := { st1 with
          accounts := updateBalance st1.accounts (some t.account_id) (fun b => b - t.amount) }
        update_saving_goal_from_account sA (some t.account_id)
      else if t.transaction_type == "Transfer" then
        let sA := { st1 with
          accounts := updateBalance st1.accounts (some t.account_id) (fun b => b - t.amount) }
        let sB := { sA with
          accounts := updateBalance sA.accounts t.to_account_id (fun b => b + t.amount) }
        let sC := update_saving_goal_from_account sB (some t.account_id)
        update_saving_goal_from_account sC t.to_account_id
      else st1
    .ok (tid, st2)

/-- Database.create_transaction (src/database/database.py, lines 415-482):
validate first (a validation failure escapes before any store access),
then run the body inside one physical transaction; any exception from the
body rolls the transaction back (the returned store is the unchanged
input) and is re-raised as DatabaseError wrapping the caught exception.
On success the pair carries the new transaction id and the committed
store. -/
def create_transaction (st : DBState) (t : Transaction) :
    Except PyExc Int × DBState :=
  match Transaction.validate t with
  | .error m => (.error (.validationError m), st)
  | .ok _ =>
    match create_transaction_body st t with
    | .error e => (.error (.databaseError e), st)
    | .ok (tid, st2) => (.ok tid, st2)

/-- Database.create_account (src/database/database.py, lines 323-346):
validate, count the user's accounts, reject at the configured limit,
otherwise insert. -/
def create_account (st : DBState) (a : Account) : Except PyExc Int × DBState :=
  match Account.validate a with
  | .error m => (.error (.validationError m), st)
  | .ok _ =>
    let account_count := (st.accounts.filter (fun r => r.userID == a.user_id)).length
    if MAX_ACCOUNTS_PER_USER ≤ account_count then
      (.error (.validationError (.maxAccountsExceeded MAX_ACCOUNTS_PER_USER)), st)
    else
      let row : AccountRow :=
        { accountID := st.nextAccountID
          userID := a.user_id
          name := a.name
          balance := a.balance
          accountType := a.account_type }
      (.ok st.nextAccountID,
       { st with accounts := st.accounts ++ [row]
                 nextAccountID := st.nextAccountID + 1 })

/-! ### Balance Summary Aggregator (Database.get_user_balance_summary) -/

/-- The dictionary returned by get_user_balance_summary. -/
structure BalanceSummary where
  total_balance : ℚ
  total_savings : ℚ
  monthly_income : ℚ
  monthly_expense : ℚ
  monthly_cashflow : ℚ
deriving DecidableEq, Repr

/-- Database.get_user_balance_summary (src/database/database.py, lines
539-582). The monthly sums keep a transaction exactly when
date(Date_Created) >= date('now', 'start of month'); `now` is the
store's current ISO timestamp. -/
def get_user_balance_summary (st : DBState) (userId : Int) (now : String) :
    BalanceSummary :=
  let total_balance :=
    ((st.accounts.filter (fun a => a.userID == userId && a.accountType != "Savings")).map
      (fun a => a.balance)).sum
  let total_savings :=
    ((st.accounts.filter (fun a => a.userID == userId && a.accountType == "Savings")).map
      (fun a => a.balance)).sum
  let monthly_income :=
    ((st.transactions.filter (fun t => t.userID == userId
        && t.transactionType == "Income"
        && strLe (startOfMonth now) (sqlDate t.dateCreated))).map (fun t => t.amount)).sum
  let monthly_expense :=
    ((st.transactions.filter (fun t => t.userID == userId
        && t.transactionType == "Expense"
        && strLe (startOfMonth now) (sqlDate t.dateCreated))).map (fun t => t.amount)).sum
  { total_balance := total_balance
    total_savings := total_savings
    monthly_income := monthly_income
    monthly_expense := monthly_expense
    monthly_cashflow := monthly_income - monthly_expense }

/-! ### Budget Evaluator (Database.check_budget_warning,
Database.get_user_budgets_with_spending) -/

/-- The spent aggregate both budget queries compute: the sum of the
user's Expense transactions of the budget's category whose Date_Created
lies inside [StartDate, EndDate] (TEXT comparison). -/
def budgetSpent (transactions : List TransactionRow) (b : BudgetRow) : ℚ :=
  ((transactions.filter (fun t =>
      t.categoryID == some b.categoryID && t.userID == b.userID
      && t.transactionType == "Expense"
      && strLe b.startDate t.dateCreated && strLe t.dateCreated b.endDate)).map
    (fun t => t.amount)).sum

/-- The dictionary check_budget_warning returns. -/
structure BudgetWarning where
  category_name : Option String
  budget_amount : ℚ
  current_spent : ℚ
  new_total : ℚ
  percentage_used : ℚ
  remaining : ℚ
deriving DecidableEq, Repr

/-- Database.check_budget_warning (src/database/database.py, lines
841-877): fetchone() on the user's non-expired budgets of the category
(the first such row), then the 75% projection test. -/
def check_budget_warning (st : DBState) (userId categoryId : Int) (amount : ℚ)
    (now : String) : Option BudgetWarning :=
  match (st.budgets.filter (fun b =>
      b.userID == userId && b.categoryID == categoryId && strLt now b.endDate)).head? with
  | none => none
  | some b =>
    let current_spent := budgetSpent st.transactions b
    let new_total := current_spent + amount
    let percentage_used := new_total / b.budgetAmount * 100
    if 75 ≤ percentage_used then
      some { category_name :=
               (st.categories.find? (fun c => c.categoryID == b.categoryID)).map
                 (fun c => c.name)
             budget_amount := b.budgetAmount
             current_spent := current_spent
             new_total := new_total
             percentage_used := percentage_used
             remaining := b.budgetAmount - new_total }
    else none

/-- One element of the list get_user_budgets_with_spending returns.
The days_remaining entry of the source dictionary is presentation-only
calendar arithmetic and is not part of this embedding. -/
structure BudgetView where
  budget_id : Int
  user_id : Int
  category_id : Int
  category_name : Option String
  budget_amount : ℚ
  spent_amount : ℚ
  remaining_amount : ℚ
  spent_percentage : ℚ
  time_period : String
  start_date : String
  end_date : String
  is_over_threshold : Bool
deriving DecidableEq, Repr

/-- The ORDER BY key of get_user_budgets_with_spending: the spent
fraction when it reaches 0.7, and -1 otherwise. -/
def orderKey (transactions : List TransactionRow) (b : BudgetRow) : ℚ :=
  if WARNING_THRESHOLD ≤ budgetSpent transactions b / b.budgetAmount then
    budgetSpent transactions b / b.budgetAmount
  else -1

/-- The row order produced by ORDER BY key DESC, datetime(EndDate) ASC:
b1 precedes (or ties) b2 when its key is larger, or the keys tie and its
EndDate is not later. -/
def budgetRowLe (transactions : List TransactionRow) (b1 b2 : BudgetRow) : Bool :=
  orderKey transactions b2 < orderKey transactions b1
  || (orderKey transactions b1 == orderKey transactions b2
      && strLe b1.endDate b2.endDate)

/-- The loop body of Database.get_user_budgets_with_spending: one
budget row decorated with the Python-side spending figures. -/
def budgetView (st : DBState) (b : BudgetRow) : BudgetView :=
  let spent := budgetSpent st.transactions b
  let spent_percentage := if 0 < b.budgetAmount then spent / b.budgetAmount else 0
  { budget_id := b.budgetID
    user_id := b.userID
    category_id := b.categoryID
    category_name :=
      (st.categories.find? (fun c => c.categoryID == b.categoryID)).map (fun c => c.name)
    budget_amount := b.budgetAmount
    spent_amount := spent
    remaining_amount := max 0 (b.budgetAmount - spent)
    spent_percentage := spent_percentage
    time_period := b.timePeriod
    start_date := b.startDate
    end_date := b.endDate
    is_over_threshold := decide (WARNING_THRESHOLD ≤ spent_percentage) }

/-- Database.get_user_budgets_with_spending (src/database/database.py,
lines 755-816): the user's non-expired budgets, ordered by the SQL
ORDER BY above, each decorated with the spending aggregates computed in
the Python loop. -/
def get_user_budgets_with_spending (st : DBState) (userId : Int) (now : String) :
    List BudgetView :=
  ((st.budgets.filter (fun b =>
      b.userID == userId && strLt now b.endDate)).mergeSort
    (budgetRowLe st.transactions)).map (budgetView st)

/-! ### Concrete data, used to evaluate the theorems on explicit inputs -/

/-- A bank account with id 1, user 1, balance 100. -/
def sampleBank : AccountRow :=
  { accountID := 1, userID := 1, name := "My Bank Account", balance := 100,
    accountType := "Bank" }

/-- A savings account with id 2, user 1, balance 20, backing the sample goal. -/
def sampleFund : AccountRow :=
  { accountID := 2, userID := 1, name := "Vacation Fund", balance := 20,
    accountType := "Savings" }

/-- The saving goal backed by account 2. -/
def sampleGoal : SavingGoalRow :=
  { goalID := 1, userID := 1, goalName := "Vacation", targetAmount := 500,
    currentAmount := 20, accountID := some 2, isDefault := false }

/-- An Expense category with id 7. -/
def sampleCategory : CategoryRow :=
  { categoryID := 7, userID := 1, name := "Food & Drink", categoryType := "Expense" }

/-- A store with the two accounts, the goal and the category. -/
def sampleStore : DBState :=
  { accounts := [sampleBank, sampleFund]
    categories := [sampleCategory]
    transactions := []
    savingGoals := [sampleGoal]
    budgets := []
    nextTransactionID := 1
    nextAccountID := 3 }

/-- A Transfer of 30 from account 1 to account 2. -/
def sampleTransfer : Transaction :=
  { user_id := 1, account_id := 1, category_id := none, amount := 30,
    description := "", transaction_type := "Transfer", to_account_id := some 2,
    date_created := "2026-10-05T12:00:00" }

/-- An Expense of 150 from account 1 (which holds only 100). -/
def sampleExpense150 : Transaction :=
  { user_id := 1, account_id := 1, category_id := some 7, amount := 150,
    description := "", transaction_type := "Expense", to_account_id := none,
    date_created := "2026-10-05T12:00:00" }

/-- The monthly-income aggregate as claim C8 words it: the sum over the
user's Income transactions whose creation timestamp lies in
[start of the current calendar month, now). Written from the claim's
words, for comparison with the aggregate the code computes. -/
def monthlyIncomeClaim (st : DBState) (userId : Int) (now : String) : ℚ :=
  ((st.transactions.filter (fun t => t.userID == userId
      && t.transactionType == "Income"
      && strLe (startOfMonth now) t.dateCreated
      && strLt t.dateCreated now)).map (fun t => t.amount)).sum

/-- The current timestamp used with the concrete stores. -/
def sampleNow : String := "2026-10-12T10:00:00"

/-- An Income transaction row dated after sampleNow. -/
def futureIncomeTx : TransactionRow :=
  { transactionID := 1, userID := 1, accountID := 1, categoryID := some 8,
    amount := 500, description := "", transactionType := "Income",
    toAccountID := none, dateCreated := "2026-12-25T00:00:00" }

/-- The sample store holding only the future-dated Income transaction. -/
def futureIncomeStore : DBState := { sampleStore with transactions := [futureIncomeTx] }

/-- A budget of 1000 on category 7 covering October 2026. -/
def sampleBudget : BudgetRow :=
  { budgetID := 1, userID := 1, categoryID := 7, budgetAmount := 1000,
    timePeriod := "Month", startDate := "2026-10-01T00:00:00",
    endDate := "2026-11-01T00:00:00" }

/-- An Expense row of 760 against category 7 inside the budget window. -/
def spentTx760 : TransactionRow :=
  { transactionID := 2, userID := 1, accountID := 1, categoryID := some 7,
    amount := 760, description := "", transactionType := "Expense",
    toAccountID := none, dateCreated := "2026-10-03T09:00:00" }

/-- The sample store extended with the budget and its prior spending. -/
def budgetStore : DBState :=
  { sampleStore with budgets := [sampleBudget], transactions := [spentTx760] }

/-- A second budget, on category 9 with no spending, expiring earlier. -/
def sampleBudget2 : BudgetRow :=
  { budgetID := 2, userID := 1, categoryID := 9, budgetAmount := 100,
    timePeriod := "Month", startDate := "2026-10-01T00:00:00",
    endDate := "2026-10-20T00:00:00" }

/-- The sample store with two active budgets: category 7 at 76% spent,
category 9 untouched. -/
def budgetStore2 : DBState :=
  { sampleStore with
    budgets := [sampleBudget2, sampleBudget]
    transactions := [spentTx760] }

/-- A Transfer of 30 from account 1 to the nonexistent account 99. -/
def ghostTransfer : Transaction :=
  { user_id := 1, account_id := 1, category_id := none, amount := 30,
    description := "", transaction_type := "Transfer", to_account_id := some 99,
    date_created := "2026-10-05T12:00:00" }

/-- The ledger row that committing sampleTransfer inserts. -/
def sampleTransferRow : TransactionRow :=
  { transactionID := 1, userID := 1, accountID := 1, categoryID := none,
    amount := 30, description := "", transactionType := "Transfer",
    toAccountID := some 2, dateCreated := "2026-10-05T12:00:00" }

/-- The store sampleTransfer leaves behind when committed on
sampleStore: 30 moved from account 1 to account 2, one ledger row, and
the goal resynced to the new balance of account 2. -/
def syncedStore : DBState :=
  { accounts := [{ sampleBank with balance := 70 }, { sampleFund with balance := 50 }]
    categories := [sampleCategory]
    transactions := [sampleTransferRow]
    savingGoals := [{ sampleGoal with currentAmount := 50 }]
    budgets := []
    nextTransactionID := 2
    nextAccountID := 3 }

/-- A valid account entity for user 1. -/
def sampleNewAccount : Account :=
  { user_id := 1, name := "Cash Wallet", balance := 0, account_type := "Cash" }

/-- A malformed transaction: an Expense with a non-positive amount. -/
def sampleNegativeExpense : Transaction :=
  { user_id := 1, account_id := 1, category_id := some 7, amount := -5,
    description := "", transaction_type := "Expense", to_account_id := none,
    date_created := "2026-10-05T12:00:00" }

/-! ## Lemmas -/

lemma lexLt_asymm : ∀ (x y : List Char), lexLt x y = true → lexLt y x = true → False := by
  intro x
  induction x with
  | nil =>
    intro y hxy hyx
    cases y with
    | nil => simp [lexLt] at hxy
    | cons b bs => simp [lexLt] at hyx
  | cons a as ih =>
    intro y hxy hyx
    cases y with
    | nil => simp [lexLt] at hxy
    | cons b bs =>
      simp [lexLt] at hxy hyx
      rcases hxy with h1 | ⟨h1e, h1r⟩ <;> rcases hyx with h2 | ⟨h2e, h2r⟩
      · omega
      · omega
      · omega
      · exact ih bs h1r h2r

lemma lexLt_cotrans :
    ∀ (x z : List Char), lexLt x z = true →
      ∀ (y : List Char), lexLt x y = true ∨ lexLt y z = true := by
  intro x
  induction x with
  | nil =>
    intro z hxz y
    cases z with
    | nil => simp [lexLt] at hxz
    | cons c cs =>
      cases y with
      | nil => right; simp [lexLt]
      | cons b bs => left; simp [lexLt]
  | cons a as ih =>
    intro z hxz y
    cases z with
    | nil => simp [lexLt] at hxz
    | cons c cs =>
      cases y with
      | nil => right; simp [lexLt]
      | cons b bs =>
        simp [lexLt] at hxz ⊢
        rcases hxz with h | ⟨he, hr⟩
        · rcases Nat.lt_or_ge a.toNat b.toNat with h2 | h2
          · left; left; exact h2
          · right; left; omega
        · rcases Nat.lt_trichotomy a.toNat b.toNat with h2 | h2 | h2
          · left; left; exact h2
          · rcases ih cs hr bs with h3 | h3
            · left; right; exact ⟨h2, h3⟩
            · right; right; exact ⟨by omega, h3⟩
          · right; left; omega

lemma strLt_asymm {a b : String} (h1 : strLt a b = true) (h2 : strLt b a = true) : False :=
  lexLt_asymm a.data b.data h1 h2

lemma strLe_total (a b : String) : strLe a b = true ∨ strLe b a = true := by
  unfold strLe
  cases h1 : strLt b a with
  | false => left; simp
  | true =>
    right
    cases h2 : strLt a b with
    | false => simp
    | true => exact absurd (strLt_asymm h2 h1) (fun f => f)

lemma strLe_trans {a b c : String} (h1 : strLe a b = true) (h2 : strLe b c = true) :
    strLe a c = true := by
  unfold strLe at h1 h2 ⊢
  simp only [Bool.not_eq_true'] at h1 h2 ⊢
  cases h : strLt c a with
  | false => rfl
  | true =>
    exfalso
    rcases lexLt_cotrans c.data a.data h b.data with h3 | h3
    · simp only [strLt] at h2; rw [h2] at h3; exact Bool.noConfusion h3
    · simp only [strLt] at h1; rw [h1] at h3; exact Bool.noConfusion h3

lemma find?_map_comm {α : Type} (g : α → α) (p : α → Bool)
    (hp : ∀ a, p (g a) = p a) (l : List α) :
    (l.map g).find? p = (l.find? p).map g := by
  rw [List.find?_map]
  rw [show p ∘ g = p from funext hp]

lemma findAccount_updateBalance (l : List AccountRow) (x y : Option Int) (f : ℚ → ℚ) :
    findAccount (updateBalance l x f) y =
      (findAccount l y).map (fun a =>
        if some a.accountID == x then { a with balance := f a.balance } else a) := by
  unfold findAccount updateBalance
  apply find?_map_comm
  intro a
  by_cases h : (some a.accountID == x) = true <;> simp [h]

lemma findGoal_syncMap (l : List SavingGoalRow) (gid : Int) (v : ℚ) (y : Option Int) :
    (l.map (fun g2 => if g2.goalID == gid then { g2 with currentAmount := v } else g2)).find?
        (fun g2 => g2.accountID == y)
      = (l.find? (fun g2 => g2.accountID == y)).map
          (fun g2 => if g2.goalID == gid then { g2 with currentAmount := v } else g2) := by
  apply find?_map_comm
  intro g2
  by_cases h : (g2.goalID == gid) = true <;> simp [h]

lemma updateBalance_id (l : List AccountRow) (x : Option Int) (f : ℚ → ℚ)
    (h : findAccount l x = none) : updateBalance l x f = l := by
  unfold findAccount at h
  rw [List.find?_eq_none] at h
  unfold updateBalance
  have h2 : l.map (fun a =>
      if some a.accountID == x then { a with balance := f a.balance } else a) = l.map id :=
    List.map_congr_left (by intro a ha; simp [h a ha])
  rw [h2, List.map_id]

lemma sum_updateBalance (l : List AccountRow) (x : Option Int) (f : ℚ → ℚ)
    (hnd : (l.map (fun a => a.accountID)).Nodup) (r : AccountRow)
    (hr : findAccount l x = some r) :
    ((updateBalance l x f).map (fun a => a.balance)).sum
      = (l.map (fun a => a.balance)).sum - r.balance + f r.balance := by
  induction l with
  | nil => simp [findAccount] at hr
  | cons a as ih =>
    rw [List.map_cons, List.nodup_cons] at hnd
    by_cases hpa : (some a.accountID == x) = true
    · unfold findAccount at hr
      rw [List.find?_cons_of_pos (p := fun (b : AccountRow) => some b.accountID == x) _ hpa] at hr
      obtain rfl : a = r := by injection hr
      have hx : x = some a.accountID := (eq_of_beq hpa).symm
      have hnone : findAccount as x = none := by
        unfold findAccount
        rw [List.find?_eq_none]
        intro b hb
        simp only [hx, beq_iff_eq, Option.some_inj]
        intro he
        exact hnd.1 (by rw [← he]; exact List.mem_map_of_mem (fun a2 => a2.accountID) hb)
      have hrest := updateBalance_id as x f hnone
      unfold updateBalance at hrest ⊢
      rw [List.map_cons, hrest, if_pos hpa]
      simp only [List.map_cons, List.sum_cons]
      ring
    · unfold findAccount at hr
      rw [List.find?_cons_of_neg (p := fun (b : AccountRow) => some b.accountID == x) _ hpa] at hr
      have := ih hnd.2 hr
      unfold updateBalance at this ⊢
      rw [List.map_cons, if_neg hpa]
      simp only [List.map_cons, List.sum_cons, this]
      ring

lemma sync_accounts (st : DBState) (x : Option Int) :
    (update_saving_goal_from_account st x).accounts = st.accounts := by
  unfold update_saving_goal_from_account
  split <;> rfl

lemma sync_transactions (st : DBState) (x : Option Int) :
    (update_saving_goal_from_account st x).transactions = st.transactions := by
  unfold update_saving_goal_from_account
  split <;> rfl

lemma validate_ok_facts {t : Transaction} (h : Transaction.validate t = .ok ()) :
    0 < t.amount ∧
    (t.transaction_type = "Income" ∨ t.transaction_type = "Expense"
      ∨ t.transaction_type = "Transfer") ∧
    ((t.transaction_type = "Income" ∨ t.transaction_type = "Expense") →
        optIdTruthy t.category_id = true) ∧
    (t.transaction_type = "Transfer" →
        optIdTruthy t.to_account_id = true ∧ t.to_account_id ≠ some t.account_id) := by
  unfold Transaction.validate at h
  split at h
  next => exact Except.noConfusion h
  next h1 =>
  split at h
  next => exact Except.noConfusion h
  next h2 =>
  split at h
  next => exact Except.noConfusion h
  next h3 =>
  split at h
  next => exact Except.noConfusion h
  next h4 =>
  split at h
  next => exact Except.noConfusion h
  next h5 =>
  split at h
  next => exact Except.noConfusion h
  next h6 =>
  split at h
  next => exact Except.noConfusion h
  next h7 =>
  split at h
  next => exact Except.noConfusion h
  next h8 =>
  split at h
  next => exact Except.noConfusion h
  next h9 =>
  refine ⟨lt_of_not_le h1, ?_, ?_, ?_⟩
  · simp at h3
    by_cases hI : t.transaction_type = "Income"
    · exact Or.inl hI
    by_cases hE : t.transaction_type = "Expense"
    · exact Or.inr (Or.inl hE)
    exact Or.inr (Or.inr (h3 hI hE))
  · intro hty
    rcases hty with hty | hty <;> simp [hty] at h6 <;> exact h6
  · intro hty
    simp [hty] at h7 h8
    exact ⟨h7, by intro he; exact h8 (by rw [he])⟩

lemma budgetRowLe_trans (txs : List TransactionRow) (b1 b2 b3 : BudgetRow)
    (h12 : budgetRowLe txs b1 b2 = true) (h23 : budgetRowLe txs b2 b3 = true) :
    budgetRowLe txs b1 b3 = true := by
  unfold budgetRowLe at h12 h23 ⊢
  simp only [Bool.or_eq_true, Bool.and_eq_true, decide_eq_true_eq, beq_iff_eq] at h12 h23 ⊢
  rcases h12 with h | ⟨he, hs⟩ <;> rcases h23 with h2 | ⟨he2, hs2⟩
  · exact Or.inl (lt_trans h2 h)
  · exact Or.inl (he2 ▸ h)
  · exact Or.inl (he ▸ h2)
  · exact Or.inr ⟨he.trans he2, strLe_trans hs hs2⟩

lemma budgetRowLe_total (txs : List TransactionRow) (b1 b2 : BudgetRow) :
    (budgetRowLe txs b1 b2 || budgetRowLe txs b2 b1) = true := by
  unfold budgetRowLe
  simp only [Bool.or_eq_true, Bool.and_eq_true, decide_eq_true_eq, beq_iff_eq]
  rcases lt_trichotomy (orderKey txs b1) (orderKey txs b2) with h | h | h
  · exact Or.inr (Or.inl h)
  · rcases strLe_total b1.endDate b2.endDate with hs | hs
    · exact Or.inl (Or.inr ⟨h, hs⟩)
    · exact Or.inr (Or.inr ⟨h.symm, hs⟩)
  · exact Or.inl (Or.inl h)

lemma percentage_threshold (x A : ℚ) : 75 ≤ x / A * 100 ↔ 3 / 4 ≤ x / A := by
  constructor
  · intro h; nlinarith
  · intro h; nlinarith

lemma create_transaction_insufficient (st : DBState) (t : Transaction) (rowA : AccountRow)
    (hv : Transaction.validate t = .ok ())
    (hty : t.transaction_type = "Expense" ∨ t.transaction_type = "Transfer")
    (hA : findAccount st.accounts (some t.account_id) = some rowA)
    (hlt : rowA.balance < t.amount) :
    create_transaction st t =
      (.error (.databaseError
          (.validationError (.insufficientBalance rowA.balance t.amount))), st) := by
  unfold create_transaction
  rw [hv]
  unfold create_transaction_body
  rcases hty with hty | hty <;> simp +decide [hty, hA, hlt]

lemma transfer_committed (st : DBState) (t : Transaction) (rowA : AccountRow)
    (hv : Transaction.validate t = .ok ())
    (hty : t.transaction_type = "Transfer")
    (hA : findAccount st.accounts (some t.account_id) = some rowA)
    (hle : t.amount ≤ rowA.balance) :
    ∃ st2 : DBState,
      create_transaction st t = (.ok st.nextTransactionID, st2) ∧
      st2.accounts = updateBalance
          (updateBalance st.accounts (some t.account_id) (fun b => b - t.amount))
          t.to_account_id (fun b => b + t.amount) ∧
      st2.transactions = st.transactions ++
        [{ transactionID := st.nextTransactionID
           userID := t.user_id
           accountID := t.account_id
           categoryID := t.category_id
           amount := t.amount
           description := t.description
           transactionType := t.transaction_type
           toAccountID := t.to_account_id
           dateCreated := t.date_created }] := by
  have hnotlt : ¬ (rowA.balance < t.amount) := not_lt.mpr hle
  unfold create_transaction
  rw [hv]
  unfold create_transaction_body
  simp +decide [hty, hA, hnotlt]
  constructor
  · simp [sync_accounts]
  · simp [sync_transactions]

/-- C1: for a committed Transfer of amount a between existing distinct
accounts A and B with a within A's balance, the source loses exactly a,
the destination gains exactly a, and the two balances sum to what they
summed to before. -/
theorem transfer_conserves_balances
    (st : DBState) (t : Transaction) (rowA rowB : AccountRow)
    (hv : Transaction.validate t = .ok ())
    (hty : t.transaction_type = "Transfer")
    (hA : findAccount st.accounts (some t.account_id) = some rowA)
    (hB : findAccount st.accounts t.to_account_id = some rowB)
    (hAB : rowA.accountID ≠ rowB.accountID)
    (hle : t.amount ≤ rowA.balance) :
    (create_transaction st t).1 = .ok st.nextTransactionID ∧
    findAccount (create_transaction st t).2.accounts (some t.account_id)
      = some { rowA with balance := rowA.balance - t.amount } ∧
    findAccount (create_transaction st t).2.accounts t.to_account_id
      = some { rowB with balance := rowB.balance + t.amount } ∧
    (rowA.balance - t.amount) + (rowB.balance + t.amount) = rowA.balance + rowB.balance := by
  obtain ⟨st2, heq, hacc, -⟩ := transfer_committed st t rowA hv hty hA hle
  have h1 : rowA.accountID = t.account_id := by
    have := List.find?_some hA
    simpa using this
  have h2 : some rowB.accountID = t.to_account_id := by
    have := List.find?_some hB
    simpa using this
  have hBA : rowB.accountID ≠ rowA.accountID := fun he => hAB he.symm
  rw [heq]
  refine ⟨rfl, ?_, ?_, by ring⟩
  · rw [show (Except.ok st.nextTransactionID, st2).2 = st2 from rfl, hacc,
      findAccount_updateBalance, findAccount_updateBalance, hA]
    simp [h1, ← h2, hAB]
    intro he
    exact absurd (h1.trans he) hAB
  · rw [show (Except.ok st.nextTransactionID, st2).2 = st2 from rfl, hacc,
      findAccount_updateBalance, findAccount_updateBalance, hB]
    simp [← h1, ← h2, hBA]

/-- Witness for C1: the transfer of 30 from account 1 (balance 100) to
account 2 (balance 20) satisfies the hypotheses, and the theorem applies. -/
theorem transfer_conserves_balances_witness :
    Transaction.validate sampleTransfer = .ok () ∧
    sampleTransfer.transaction_type = "Transfer" ∧
    findAccount sampleStore.accounts (some sampleTransfer.account_id) = some sampleBank ∧
    findAccount sampleStore.accounts sampleTransfer.to_account_id = some sampleFund ∧
    sampleBank.accountID ≠ sampleFund.accountID ∧
    sampleTransfer.amount ≤ sampleBank.balance ∧
    ((create_transaction sampleStore sampleTransfer).1 = .ok sampleStore.nextTransactionID ∧
     findAccount (create_transaction sampleStore sampleTransfer).2.accounts
         (some sampleTransfer.account_id)
       = some { sampleBank with balance := sampleBank.balance - sampleTransfer.amount } ∧
     findAccount (create_transaction sampleStore sampleTransfer).2.accounts
         sampleTransfer.to_account_id
       = some { sampleFund with balance := sampleFund.balance + sampleTransfer.amount } ∧
     (sampleBank.balance - sampleTransfer.amount) + (sampleFund.balance + sampleTransfer.amount)
       = sampleBank.balance + sampleFund.balance) := by
  have hv : Transaction.validate sampleTransfer = .ok () := by
    norm_num [Transaction.validate, sampleTransfer, MAX_AMOUNT, optIdTruthy]
    simp +decide
  have hA : findAccount sampleStore.accounts (some sampleTransfer.account_id)
      = some sampleBank := by
    norm_num [findAccount, sampleStore, sampleBank, sampleFund, sampleTransfer]
  have hB : findAccount sampleStore.accounts sampleTransfer.to_account_id
      = some sampleFund := by
    norm_num [findAccount, sampleStore, sampleBank, sampleFund, sampleTransfer]
  have hAB : sampleBank.accountID ≠ sampleFund.accountID := by
    norm_num [sampleBank, sampleFund]
  have hle : sampleTransfer.amount ≤ sampleBank.balance := by
    norm_num [sampleTransfer, sampleBank]
  exact ⟨hv, rfl, hA, hB, hAB, hle,
    transfer_conserves_balances sampleStore sampleTransfer sampleBank sampleFund
      hv rfl hA hB hAB hle⟩

/-- Counterexample for C3: an Expense of 150 against a balance of 100 is
rejected, but the exception the caller observes is a DatabaseError — the
same exception class as a generic store failure — wrapping the internal
ValidationError; no separate InsufficientFundsError class exists. -/
theorem insufficient_funds_is_database_error :
    create_transaction sampleStore sampleExpense150 =
      (.error (.databaseError (.validationError (.insufficientBalance 100 150))),
       sampleStore) ∧
    excIsDatabaseError
      (.databaseError (.validationError (.insufficientBalance 100 150))) = true := by
  constructor
  · have hv : Transaction.validate sampleExpense150 = .ok () := by
      norm_num [Transaction.validate, sampleExpense150, MAX_AMOUNT, optIdTruthy]
      simp +decide
    have hA : findAccount sampleStore.accounts (some sampleExpense150.account_id)
        = some sampleBank := by
      norm_num [findAccount, sampleStore, sampleBank, sampleFund, sampleExpense150]
    have := create_transaction_insufficient sampleStore sampleExpense150 sampleBank
      hv (Or.inl rfl) hA (by norm_num [sampleBank, sampleExpense150])
    simpa [sampleBank, sampleExpense150] using this
  · rfl

/-- C3 as amended: a well-formed Expense or Transfer whose amount
exceeds the source balance fails with a DatabaseError wrapping a
ValidationError that names the insufficient balance. The caller can
tell it apart from a direct validation failure (whose class is
ValidationError), but it shares the DatabaseError class with generic
store failures; there is no distinct InsufficientFundsError. -/
theorem insufficient_funds_error_shape
    (st : DBState) (t : Transaction) (rowA : AccountRow)
    (hv : Transaction.validate t = .ok ())
    (hty : t.transaction_type = "Expense" ∨ t.transaction_type = "Transfer")
    (hA : findAccount st.accounts (some t.account_id) = some rowA)
    (hlt : rowA.balance < t.amount) :
    create_transaction st t =
      (.error (.databaseError
          (.validationError (.insufficientBalance rowA.balance t.amount))), st) ∧
    excIsDatabaseError
      (.databaseError (.validationError (.insufficientBalance rowA.balance t.amount)))
      = true :=
  ⟨create_transaction_insufficient st t rowA hv hty hA hlt, rfl⟩

/-- Witness for the amended C3. -/
theorem insufficient_funds_error_shape_witness :
    Transaction.validate sampleExpense150 = .ok () ∧
    (sampleExpense150.transaction_type = "Expense"
      ∨ sampleExpense150.transaction_type = "Transfer") ∧
    findAccount sampleStore.accounts (some sampleExpense150.account_id) = some sampleBank ∧
    sampleBank.balance < sampleExpense150.amount ∧
    (create_transaction sampleStore sampleExpense150 =
      (.error (.databaseError
          (.validationError
            (.insufficientBalance sampleBank.balance sampleExpense150.amount))),
       sampleStore) ∧
     excIsDatabaseError
      (.databaseError
        (.validationError (.insufficientBalance sampleBank.balance sampleExpense150.amount)))
      = true) := by
  have hv : Transaction.validate sampleExpense150 = .ok () := by
    norm_num [Transaction.validate, sampleExpense150, MAX_AMOUNT, optIdTruthy]
    simp +decide
  have hA : findAccount sampleStore.accounts (some sampleExpense150.account_id)
      = some sampleBank := by
    norm_num [findAccount, sampleStore, sampleBank, sampleFund, sampleExpense150]
  have hlt : sampleBank.balance < sampleExpense150.amount := by
    norm_num [sampleBank, sampleExpense150]
  exact ⟨hv, Or.inl rfl, hA, hlt,
    insufficient_funds_error_shape sampleStore sampleExpense150 sampleBank
      hv (Or.inl rfl) hA hlt⟩

lemma expense_committed (st : DBState) (t : Transaction) (rowA : AccountRow)
    (hv : Transaction.validate t = .ok ())
    (hty : t.transaction_type = "Expense")
    (hA : findAccount st.accounts (some t.account_id) = some rowA)
    (hle : t.amount ≤ rowA.balance) :
    ∃ st2 : DBState,
      create_transaction st t = (.ok st.nextTransactionID, st2) ∧
      st2.accounts = updateBalance st.accounts (some t.account_id) (fun b => b - t.amount) ∧
      st2.transactions = st.transactions ++
        [{ transactionID := st.nextTransactionID
           userID := t.user_id
           accountID := t.account_id
           categoryID := t.category_id
           amount := t.amount
           description := t.description
           transactionType := t.transaction_type
           toAccountID := t.to_account_id
           dateCreated := t.date_created }] := by
  have hnotlt : ¬ (rowA.balance < t.amount) := not_lt.mpr hle
  unfold create_transaction
  rw [hv]
  unfold create_transaction_body
  simp +decide [hty, hA, hnotlt]
  constructor
  · simp [sync_accounts]
  · simp [sync_transactions]

lemma income_committed (st : DBState) (t : Transaction)
    (hv : Transaction.validate t = .ok ())
    (hty : t.transaction_type = "Income") :
    ∃ st2 : DBState,
      create_transaction st t = (.ok st.nextTransactionID, st2) ∧
      st2.accounts = updateBalance st.accounts (some t.account_id) (fun b => b + t.amount) ∧
      st2.transactions = st.transactions ++
        [{ transactionID := st.nextTransactionID
           userID := t.user_id
           accountID := t.account_id
           categoryID := t.category_id
           amount := t.amount
           description := t.description
           transactionType := t.transaction_type
           toAccountID := t.to_account_id
           dateCreated := t.date_created }] := by
  unfold create_transaction
  rw [hv]
  unfold create_transaction_body
  simp +decide [hty]
  constructor
  · simp [sync_accounts]
  · simp [sync_transactions]

/-- C4: a well-formed Expense or Transfer whose source account exists
aborts with the insufficient-funds failure exactly when the amount
strictly exceeds the balance; an amount equal to the balance commits;
a rejected call returns the store unchanged (no ledger row, balances
keep their prior values). -/
theorem insufficient_funds_boundary
    (st : DBState) (t : Transaction) (rowA : AccountRow)
    (hv : Transaction.validate t = .ok ())
    (hty : t.transaction_type = "Expense" ∨ t.transaction_type = "Transfer")
    (hA : findAccount st.accounts (some t.account_id) = some rowA) :
    (rowA.balance < t.amount →
      create_transaction st t =
        (.error (.databaseError
            (.validationError (.insufficientBalance rowA.balance t.amount))), st)) ∧
    (t.amount ≤ rowA.balance →
      ∃ st2, create_transaction st t = (.ok st.nextTransactionID, st2)) := by
  constructor
  · intro hlt
    exact create_transaction_insufficient st t rowA hv hty hA hlt
  · intro hle
    rcases hty with hty | hty
    · obtain ⟨st2, heq, -, -⟩ := expense_committed st t rowA hv hty hA hle
      exact ⟨st2, heq⟩
    · obtain ⟨st2, heq, -, -⟩ := transfer_committed st t rowA hv hty hA hle
      exact ⟨st2, heq⟩

/-- Witness for C4: at balance 100, an Expense of 150 is rejected with
the store unchanged, and an Expense of at most 100 would commit. -/
theorem insufficient_funds_boundary_witness :
    Transaction.validate sampleExpense150 = .ok () ∧
    (sampleExpense150.transaction_type = "Expense"
      ∨ sampleExpense150.transaction_type = "Transfer") ∧
    findAccount sampleStore.accounts (some sampleExpense150.account_id) = some sampleBank ∧
    ((sampleBank.balance < sampleExpense150.amount →
      create_transaction sampleStore sampleExpense150 =
        (.error (.databaseError
            (.validationError
              (.insufficientBalance sampleBank.balance sampleExpense150.amount))),
         sampleStore)) ∧
     (sampleExpense150.amount ≤ sampleBank.balance →
      ∃ st2, create_transaction sampleStore sampleExpense150
        = (.ok sampleStore.nextTransactionID, st2))) := by
  have hv : Transaction.validate sampleExpense150 = .ok () := by
    norm_num [Transaction.validate, sampleExpense150, MAX_AMOUNT, optIdTruthy]
    simp +decide
  have hA : findAccount sampleStore.accounts (some sampleExpense150.account_id)
      = some sampleBank := by
    norm_num [findAccount, sampleStore, sampleBank, sampleFund, sampleExpense150]
  exact ⟨hv, Or.inl rfl, hA,
    insufficient_funds_boundary sampleStore sampleExpense150 sampleBank hv (Or.inl rfl) hA⟩

/-- C5: a malformed Transaction (non-positive amount; Income or Expense
with no category; Transfer with a missing destination or a destination
equal to the source) is rejected by recordTransaction with a
ValidationError raised before any store access, and the returned store
is the unchanged input: no row inserted, no balance mutated. -/
theorem malformed_transaction_rejected (st : DBState) (t : Transaction)
    (hmal : t.amount ≤ 0
      ∨ ((t.transaction_type = "Income" ∨ t.transaction_type = "Expense")
          ∧ t.category_id = none)
      ∨ (t.transaction_type = "Transfer"
          ∧ (t.to_account_id = none ∨ t.to_account_id = some t.account_id))) :
    ∃ m, create_transaction st t = (.error (.validationError m), st) := by
  have hne : Transaction.validate t ≠ .ok () := by
    intro hok
    obtain ⟨hpos, -, hcat, htr⟩ := validate_ok_facts hok
    rcases hmal with h | ⟨hty, hc⟩ | ⟨hty, hd⟩
    · exact absurd hpos (not_lt.mpr h)
    · have h2 := hcat hty
      rw [hc] at h2
      simp [optIdTruthy] at h2
    · obtain ⟨htruthy, hneq⟩ := htr hty
      rcases hd with hd | hd
      · rw [hd] at htruthy
        simp [optIdTruthy] at htruthy
      · exact hneq hd
  cases hval : Transaction.validate t with
  | error m =>
    refine ⟨m, ?_⟩
    unfold create_transaction
    rw [hval]
  | ok u =>
    cases u
    exact absurd hval hne

/-- C9: createAccount commits for a valid account while the user holds
strictly fewer accounts than the configured maximum (5), incrementing
the user's account count by one; at the maximum it raises the
account-limit ValidationError and the store (hence the count) is
unchanged. -/
theorem account_limit_enforced (st : DBState) (a : Account)
    (hv : Account.validate a = .ok ()) :
    ((st.accounts.filter (fun r => r.userID == a.user_id)).length < MAX_ACCOUNTS_PER_USER →
      (create_account st a).1 = .ok st.nextAccountID ∧
      ((create_account st a).2.accounts.filter (fun r => r.userID == a.user_id)).length
        = (st.accounts.filter (fun r => r.userID == a.user_id)).length + 1) ∧
    (MAX_ACCOUNTS_PER_USER ≤ (st.accounts.filter (fun r => r.userID == a.user_id)).length →
      create_account st a =
        (.error (.validationError (.maxAccountsExceeded MAX_ACCOUNTS_PER_USER)), st)) := by
  constructor
  · intro hlt
    unfold create_account
    rw [hv, if_neg (not_le.mpr hlt)]
    refine ⟨rfl, ?_⟩
    simp [List.filter_append]
  · intro hge
    unfold create_account
    rw [hv, if_pos hge]

/-- Witness for C5: an Expense of -5 is rejected with a ValidationError
and the store comes back unchanged. -/
theorem malformed_transaction_rejected_witness :
    sampleNegativeExpense.amount ≤ 0 ∧
    ∃ m, create_transaction sampleStore sampleNegativeExpense
      = (.error (.validationError m), sampleStore) := by
  have hmal : sampleNegativeExpense.amount ≤ 0 := by norm_num [sampleNegativeExpense]
  exact ⟨hmal,
    malformed_transaction_rejected sampleStore sampleNegativeExpense (Or.inl hmal)⟩

/-- Witness for C9: user 1 holds 2 of the allowed 5 accounts in the
sample store, so creating a valid third account commits and raises the
count to 3. -/
theorem account_limit_enforced_witness :
    Account.validate sampleNewAccount = .ok () ∧
    ((sampleStore.accounts.filter
        (fun r => r.userID == sampleNewAccount.user_id)).length < MAX_ACCOUNTS_PER_USER →
      (create_account sampleStore sampleNewAccount).1 = .ok sampleStore.nextAccountID ∧
      ((create_account sampleStore sampleNewAccount).2.accounts.filter
          (fun r => r.userID == sampleNewAccount.user_id)).length
        = (sampleStore.accounts.filter
            (fun r => r.userID == sampleNewAccount.user_id)).length + 1) ∧
    (MAX_ACCOUNTS_PER_USER ≤ (sampleStore.accounts.filter
        (fun r => r.userID == sampleNewAccount.user_id)).length →
      create_account sampleStore sampleNewAccount =
        (.error (.validationError (.maxAccountsExceeded MAX_ACCOUNTS_PER_USER)),
         sampleStore)) := by
  have hv : Account.validate sampleNewAccount = .ok () := by rfl
  exact ⟨hv, account_limit_enforced sampleStore sampleNewAccount hv⟩

lemma sum_filter_partition {α : Type} (l : List α) (p q : α → Bool) (f : α → ℚ) :
    ((l.filter p).map f).sum
      = ((l.filter (fun a => p a && q a)).map f).sum
        + ((l.filter (fun a => p a && !(q a))).map f).sum := by
  induction l with
  | nil => simp
  | cons a as ih =>
    cases hp : p a with
    | false => simp [hp, ih]
    | true =>
      cases hq : q a with
      | false => simp [hp, hq, ih]; ring
      | true => simp [hp, hq, ih]; ring

/-- Counterexample for C8: with now = 2026-10-12, an Income of 500 dated
2026-12-25 (at or after now) is still counted by the code's monthly
income, while the claimed window [start of month, now) excludes it. -/
theorem monthly_window_counterexample :
    (get_user_balance_summary futureIncomeStore 1 sampleNow).monthly_income = 500 ∧
    monthlyIncomeClaim futureIncomeStore 1 sampleNow = 0 ∧
    (get_user_balance_summary futureIncomeStore 1 sampleNow).monthly_income
      ≠ monthlyIncomeClaim futureIncomeStore 1 sampleNow := by
  refine ⟨?_, ?_, ?_⟩ <;>
    simp +decide [get_user_balance_summary, monthlyIncomeClaim, futureIncomeStore,
      sampleStore, futureIncomeTx, sampleNow]

/-- C8 as amended: monthlyCashflow is monthlyIncome minus
monthlyExpense, and the monthly figures sum every transaction of the
user and kind whose creation date (at day precision) is on or after the
first day of the current month — the window has no upper bound, so the
sum splits into the part the claim describes (dated before now) plus
the transactions dated at or after now, which are also included. -/
theorem balance_summary_monthly_window (st : DBState) (userId : Int) (now : String) :
    (get_user_balance_summary st userId now).monthly_cashflow
      = (get_user_balance_summary st userId now).monthly_income
        - (get_user_balance_summary st userId now).monthly_expense ∧
    (get_user_balance_summary st userId now).monthly_income
      = ((st.transactions.filter (fun t => (t.userID == userId
            && t.transactionType == "Income"
            && strLe (startOfMonth now) (sqlDate t.dateCreated))
            && strLt t.dateCreated now)).map (fun t => t.amount)).sum
        + ((st.transactions.filter (fun t => (t.userID == userId
            && t.transactionType == "Income"
            && strLe (startOfMonth now) (sqlDate t.dateCreated))
            && !(strLt t.dateCreated now))).map (fun t => t.amount)).sum ∧
    (get_user_balance_summary st userId now).monthly_expense
      = ((st.transactions.filter (fun t => (t.userID == userId
            && t.transactionType == "Expense"
            && strLe (startOfMonth now) (sqlDate t.dateCreated))
            && strLt t.dateCreated now)).map (fun t => t.amount)).sum
        + ((st.transactions.filter (fun t => (t.userID == userId
            && t.transactionType == "Expense"
            && strLe (startOfMonth now) (sqlDate t.dateCreated))
            && !(strLt t.dateCreated now))).map (fun t => t.amount)).sum := by
  refine ⟨rfl, ?_, ?_⟩
  · exact sum_filter_partition st.transactions _ _ _
  · exact sum_filter_partition st.transactions _ _ _

/-- C10: a validated Transfer whose destination id names no Account row
still commits: the ledger row is inserted, the source balance drops by
the amount, no other balance changes (the destination update matches
nothing), and the total of all account balances drops by the amount. -/
theorem transfer_missing_destination_commits
    (st : DBState) (t : Transaction) (rowA : AccountRow)
    (hnd : (st.accounts.map (fun a => a.accountID)).Nodup)
    (hv : Transaction.validate t = .ok ())
    (hty : t.transaction_type = "Transfer")
    (hA : findAccount st.accounts (some t.account_id) = some rowA)
    (hle : t.amount ≤ rowA.balance)
    (hdst : findAccount st.accounts t.to_account_id = none) :
    (create_transaction st t).1 = .ok st.nextTransactionID ∧
    (create_transaction st t).2.transactions = st.transactions ++
      [{ transactionID := st.nextTransactionID
         userID := t.user_id
         accountID := t.account_id
         categoryID := t.category_id
         amount := t.amount
         description := t.description
         transactionType := t.transaction_type
         toAccountID := t.to_account_id
         dateCreated := t.date_created }] ∧
    (create_transaction st t).2.accounts
      = updateBalance st.accounts (some t.account_id) (fun b => b - t.amount) ∧
    ((create_transaction st t).2.accounts.map (fun a => a.balance)).sum
      = (st.accounts.map (fun a => a.balance)).sum - t.amount := by
  obtain ⟨st2, heq, hacc, htx⟩ := transfer_committed st t rowA hv hty hA hle
  have hdst2 : findAccount
      (updateBalance st.accounts (some t.account_id) (fun b => b - t.amount))
      t.to_account_id = none := by
    rw [findAccount_updateBalance, hdst]
    rfl
  have hacc2 : st2.accounts
      = updateBalance st.accounts (some t.account_id) (fun b => b - t.amount) := by
    rw [hacc, updateBalance_id _ _ _ hdst2]
  rw [heq]
  refine ⟨rfl, htx, hacc2, ?_⟩
  rw [show (Except.ok st.nextTransactionID, st2).2 = st2 from rfl, hacc2,
    sum_updateBalance st.accounts (some t.account_id) (fun b => b - t.amount) hnd rowA hA]
  ring

/-- Witness for C10: transferring 30 from account 1 to the nonexistent
account 99 commits and burns 30 from the total balance. -/
theorem transfer_missing_destination_commits_witness :
    (sampleStore.accounts.map (fun a => a.accountID)).Nodup ∧
    Transaction.validate ghostTransfer = .ok () ∧
    ghostTransfer.transaction_type = "Transfer" ∧
    findAccount sampleStore.accounts (some ghostTransfer.account_id) = some sampleBank ∧
    ghostTransfer.amount ≤ sampleBank.balance ∧
    findAccount sampleStore.accounts ghostTransfer.to_account_id = none ∧
    ((create_transaction sampleStore ghostTransfer).1 = .ok sampleStore.nextTransactionID ∧
     (create_transaction sampleStore ghostTransfer).2.transactions
       = sampleStore.transactions ++
         [{ transactionID := sampleStore.nextTransactionID
            userID := ghostTransfer.user_id
            accountID := ghostTransfer.account_id
            categoryID := ghostTransfer.category_id
            amount := ghostTransfer.amount
            description := ghostTransfer.description
            transactionType := ghostTransfer.transaction_type
            toAccountID := ghostTransfer.to_account_id
            dateCreated := ghostTransfer.date_created }] ∧
     (create_transaction sampleStore ghostTransfer).2.accounts
       = updateBalance sampleStore.accounts (some ghostTransfer.account_id)
           (fun b => b - ghostTransfer.amount) ∧
     ((create_transaction sampleStore ghostTransfer).2.accounts.map
        (fun a => a.balance)).sum
       = (sampleStore.accounts.map (fun a => a.balance)).sum - ghostTransfer.amount) := by
  have hnd : (sampleStore.accounts.map (fun a => a.accountID)).Nodup := by
    simp +decide [sampleStore, sampleBank, sampleFund]
  have hv : Transaction.validate ghostTransfer = .ok () := by
    norm_num [Transaction.validate, ghostTransfer, MAX_AMOUNT, optIdTruthy]
    simp +decide
  have hA : findAccount sampleStore.accounts (some ghostTransfer.account_id)
      = some sampleBank := by
    norm_num [findAccount, sampleStore, sampleBank, sampleFund, ghostTransfer]
  have hle : ghostTransfer.amount ≤ sampleBank.balance := by
    norm_num [ghostTransfer, sampleBank]
  have hdst : findAccount sampleStore.accounts ghostTransfer.to_account_id = none := by
    norm_num [findAccount, sampleStore, sampleBank, sampleFund, ghostTransfer]
  exact ⟨hnd, hv, rfl, hA, hle, hdst,
    transfer_missing_destination_commits sampleStore ghostTransfer sampleBank
      hnd hv rfl hA hle hdst⟩

/-- C6: with at most one live budget for the (user, category) pair — the
1:1 shape the fetchone() read relies on — check_budget_warning returns
warning info exactly when a non-expired budget for the category exists
and (currentSpent + prospectiveAmount) / budgetAmount is at least 0.75,
where currentSpent sums the user's Expense transactions of the category
dated inside the budget's [start, end] window; otherwise it returns
none. -/
theorem budget_warning_iff (st : DBState) (userId categoryId : Int) (amount : ℚ)
    (now : String)
    (huniq : (st.budgets.filter (fun b =>
        b.userID == userId && b.categoryID == categoryId
          && strLt now b.endDate)).length ≤ 1) :
    (check_budget_warning st userId categoryId amount now).isSome = true ↔
      ∃ b ∈ st.budgets,
        (b.userID = userId ∧ b.categoryID = categoryId ∧ strLt now b.endDate = true) ∧
        3 / 4 ≤ (budgetSpent st.transactions b + amount) / b.budgetAmount := by
  unfold check_budget_warning
  cases hflt : st.budgets.filter (fun b =>
      b.userID == userId && b.categoryID == categoryId && strLt now b.endDate) with
  | nil =>
    simp only [List.head?_nil, Option.isSome_none, Bool.false_eq_true, false_iff]
    rintro ⟨b, hb, ⟨h1, h2, h3⟩, -⟩
    have hmem : b ∈ st.budgets.filter (fun b =>
        b.userID == userId && b.categoryID == categoryId && strLt now b.endDate) :=
      List.mem_filter.mpr ⟨hb, by simp [h1, h2, h3]⟩
    rw [hflt] at hmem
    simp at hmem
  | cons b0 rest =>
    rw [hflt] at huniq
    have hrest : rest = [] := by
      simp only [List.length_cons] at huniq
      exact List.length_eq_zero.mp (by omega)
    subst hrest
    have hb0 : b0 ∈ st.budgets.filter (fun b =>
        b.userID == userId && b.categoryID == categoryId && strLt now b.endDate) := by
      rw [hflt]
      exact List.mem_cons_self b0 []
    obtain ⟨hb0mem, hb0pred⟩ := List.mem_filter.mp hb0
    simp only [Bool.and_eq_true, beq_iff_eq] at hb0pred
    simp only [List.head?_cons]
    constructor
    · intro h
      by_cases hcond :
          75 ≤ (budgetSpent st.transactions b0 + amount) / b0.budgetAmount * 100
      · exact ⟨b0, hb0mem, ⟨hb0pred.1.1, hb0pred.1.2, hb0pred.2⟩,
          (percentage_threshold _ _).mp hcond⟩
      · rw [if_neg hcond] at h
        simp at h
    · rintro ⟨b, hbmem, ⟨h1, h2, h3⟩, h4⟩
      have hmem : b ∈ st.budgets.filter (fun b =>
          b.userID == userId && b.categoryID == categoryId && strLt now b.endDate) :=
        List.mem_filter.mpr ⟨hbmem, by simp [h1, h2, h3]⟩
      rw [hflt] at hmem
      have hbe : b = b0 := by simpa using hmem
      subst hbe
      rw [if_pos ((percentage_threshold _ _).mpr h4)]
      simp

/-- Witness for C6: a budget of 1000 on category 7 with 760 already
spent; a prospective Expense of 90 projects to 85% and draws the
warning. -/
theorem budget_warning_iff_witness :
    (budgetStore.budgets.filter (fun b =>
        b.userID == 1 && b.categoryID == 7 && strLt sampleNow b.endDate)).length ≤ 1 ∧
    ((check_budget_warning budgetStore 1 7 90 sampleNow).isSome = true ↔
      ∃ b ∈ budgetStore.budgets,
        (b.userID = 1 ∧ b.categoryID = 7 ∧ strLt sampleNow b.endDate = true) ∧
        3 / 4 ≤ (budgetSpent budgetStore.transactions b + 90) / b.budgetAmount) := by
  have huniq : (budgetStore.budgets.filter (fun b =>
      b.userID == 1 && b.categoryID == 7 && strLt sampleNow b.endDate)).length ≤ 1 := by
    simp +decide [budgetStore, sampleStore, sampleBudget, sampleNow]
  exact ⟨huniq, budget_warning_iff budgetStore 1 7 90 sampleNow huniq⟩

lemma income_committed_full (st : DBState) (t : Transaction)
    (hv : Transaction.validate t = .ok ())
    (hty : t.transaction_type = "Income") :
    create_transaction st t = (.ok st.nextTransactionID,
      update_saving_goal_from_account
        { st with
          accounts := updateBalance st.accounts (some t.account_id) (fun b => b + t.amount)
          transactions := st.transactions ++
            [{ transactionID := st.nextTransactionID
               userID := t.user_id
               accountID := t.account_id
               categoryID := t.category_id
               amount := t.amount
               description := t.description
               transactionType := t.transaction_type
               toAccountID := t.to_account_id
               dateCreated := t.date_created }]
          nextTransactionID := st.nextTransactionID + 1 }
        (some t.account_id)) := by
  unfold create_transaction
  rw [hv]
  unfold create_transaction_body
  simp +decide [hty]

lemma expense_committed_full (st : DBState) (t : Transaction) (rowA : AccountRow)
    (hv : Transaction.validate t = .ok ())
    (hty : t.transaction_type = "Expense")
    (hA : findAccount st.accounts (some t.account_id) = some rowA)
    (hle : t.amount ≤ rowA.balance) :
    create_transaction st t = (.ok st.nextTransactionID,
      update_saving_goal_from_account
        { st with
          accounts := updateBalance st.accounts (some t.account_id) (fun b => b - t.amount)
          transactions := st.transactions ++
            [{ transactionID := st.nextTransactionID
               userID := t.user_id
               accountID := t.account_id
               categoryID := t.category_id
               amount := t.amount
               description := t.description
               transactionType := t.transaction_type
               toAccountID := t.to_account_id
               dateCreated := t.date_created }]
          nextTransactionID := st.nextTransactionID + 1 }
        (some t.account_id)) := by
  have hnotlt : ¬ (rowA.balance < t.amount) := not_lt.mpr hle
  unfold create_transaction
  rw [hv]
  unfold create_transaction_body
  simp +decide [hty, hA, hnotlt]

lemma transfer_committed_full (st : DBState) (t : Transaction) (rowA : AccountRow)
    (hv : Transaction.validate t = .ok ())
    (hty : t.transaction_type = "Transfer")
    (hA : findAccount st.accounts (some t.account_id) = some rowA)
    (hle : t.amount ≤ rowA.balance) :
    create_transaction st t = (.ok st.nextTransactionID,
      update_saving_goal_from_account
        (update_saving_goal_from_account
          { st with
            accounts := updateBalance
              (updateBalance st.accounts (some t.account_id) (fun b => b - t.amount))
              t.to_account_id (fun b => b + t.amount)
            transactions := st.transactions ++
              [{ transactionID := st.nextTransactionID
                 userID := t.user_id
                 accountID := t.account_id
                 categoryID := t.category_id
                 amount := t.amount
                 description := t.description
                 transactionType := t.transaction_type
                 toAccountID := t.to_account_id
                 dateCreated := t.date_created }]
            nextTransactionID := st.nextTransactionID + 1 }
          (some t.account_id))
        t.to_account_id) := by
  have hnotlt : ¬ (rowA.balance < t.amount) := not_lt.mpr hle
  unfold create_transaction
  rw [hv]
  unfold create_transaction_body
  simp +decide [hty, hA, hnotlt]

lemma sync_goal_found (st : DBState) (x : Option Int) (a : AccountRow)
    (ha : findAccount st.accounts x = some a)
    (g0 : SavingGoalRow)
    (hg0 : st.savingGoals.find? (fun g2 => g2.accountID == x) = some g0) :
    (update_saving_goal_from_account st x).savingGoals.find?
        (fun g2 => g2.accountID == x) = some { g0 with currentAmount := a.balance } := by
  unfold update_saving_goal_from_account
  rw [ha, hg0]
  simp only
  rw [findGoal_syncMap, hg0]
  simp

lemma sync_noop_goal (st : DBState) (x : Option Int)
    (hg0 : st.savingGoals.find? (fun g2 => g2.accountID == x) = none) :
    update_saving_goal_from_account st x = st := by
  unfold update_saving_goal_from_account
  cases hfa : findAccount st.accounts x with
  | none => rw [hg0]
  | some a => rw [hg0]

lemma sync_goal_none_pred (st : DBState) (x y : Option Int)
    (hgy : st.savingGoals.find? (fun g2 => g2.accountID == y) = none) :
    (update_saving_goal_from_account st x).savingGoals.find?
        (fun g2 => g2.accountID == y) = none := by
  unfold update_saving_goal_from_account
  cases hfa : findAccount st.accounts x with
  | none => exact hgy
  | some a =>
    cases hg0 : st.savingGoals.find? (fun g2 => g2.accountID == x) with
    | none => exact hgy
    | some g0 =>
      simp only
      rw [findGoal_syncMap, hgy]
      rfl

lemma sync_goalIDs (st : DBState) (x : Option Int) :
    (update_saving_goal_from_account st x).savingGoals.map (fun g => g.goalID)
      = st.savingGoals.map (fun g => g.goalID) := by
  unfold update_saving_goal_from_account
  cases hfa : findAccount st.accounts x with
  | none => rfl
  | some a =>
    cases hg0 : st.savingGoals.find? (fun g2 => g2.accountID == x) with
    | none => rfl
    | some g0 =>
      simp only [List.map_map]
      apply List.map_congr_left
      intro g2 hg2
      simp only [Function.comp]
      split <;> rfl

lemma sync_goal_skip (st : DBState) (x y : Option Int)
    (hnd : (st.savingGoals.map (fun g => g.goalID)).Nodup)
    (hxy : x ≠ y)
    (g : SavingGoalRow)
    (hgy : st.savingGoals.find? (fun g2 => g2.accountID == y) = some g) :
    (update_saving_goal_from_account st x).savingGoals.find?
        (fun g2 => g2.accountID == y) = some g := by
  unfold update_saving_goal_from_account
  cases hfa : findAccount st.accounts x with
  | none => exact hgy
  | some a =>
    cases hg0 : st.savingGoals.find? (fun g2 => g2.accountID == x) with
    | none => exact hgy
    | some g0 =>
      simp only
      rw [findGoal_syncMap, hgy]
      have hgmem := List.mem_of_find?_eq_some hgy
      have hg0mem := List.mem_of_find?_eq_some hg0
      have hgy_pred := List.find?_some hgy
      have hg0_pred := List.find?_some hg0
      have hne : g.goalID ≠ g0.goalID := by
        intro he
        have heq : g = g0 := List.inj_on_of_nodup_map hnd hgmem hg0mem he
        rw [heq] at hgy_pred
        have h1 : g0.accountID = y := by simpa using hgy_pred
        have h2 : g0.accountID = x := by simpa using hg0_pred
        exact hxy (h2 ▸ h1.symm ▸ rfl)
      simp [hne]

lemma income_committed_general (st : DBState) (t : Transaction)
    (hv : Transaction.validate t = .ok ())
    (hty : t.transaction_type = "Income") :
    ∃ mid : DBState,
      create_transaction st t
        = (.ok st.nextTransactionID,
           update_saving_goal_from_account mid (some t.account_id)) ∧
      mid.savingGoals = st.savingGoals :=
  ⟨_, income_committed_full st t hv hty, rfl⟩

lemma expense_committed_general (st : DBState) (t : Transaction) (rowA : AccountRow)
    (hv : Transaction.validate t = .ok ())
    (hty : t.transaction_type = "Expense")
    (hA : findAccount st.accounts (some t.account_id) = some rowA)
    (hle : t.amount ≤ rowA.balance) :
    ∃ mid : DBState,
      create_transaction st t
        = (.ok st.nextTransactionID,
           update_saving_goal_from_account mid (some t.account_id)) ∧
      mid.savingGoals = st.savingGoals :=
  ⟨_, expense_committed_full st t rowA hv hty hA hle, rfl⟩

lemma transfer_committed_general (st : DBState) (t : Transaction) (rowA : AccountRow)
    (hv : Transaction.validate t = .ok ())
    (hty : t.transaction_type = "Transfer")
    (hA : findAccount st.accounts (some t.account_id) = some rowA)
    (hle : t.amount ≤ rowA.balance) :
    ∃ mid : DBState,
      create_transaction st t
        = (.ok st.nextTransactionID,
           update_saving_goal_from_account
             (update_saving_goal_from_account mid (some t.account_id))
             t.to_account_id) ∧
      mid.savingGoals = st.savingGoals :=
  ⟨_, transfer_committed_full st t rowA hv hty hA hle, rfl⟩

/-- C2: after any committed recordTransaction, every touched account
(the Income/Expense source, or either side of a Transfer) that backs a
SavingGoal has the goal's current_amount equal to the account's balance
exactly; goal ids are unique, as the table's primary key guarantees. -/
theorem goal_sync_invariant
    (st : DBState) (t : Transaction) (tid : Int) (st2 : DBState)
    (hndg : (st.savingGoals.map (fun g => g.goalID)).Nodup)
    (hrun : create_transaction st t = (.ok tid, st2))
    (accId : Int)
    (htouch : ((t.transaction_type = "Income" ∨ t.transaction_type = "Expense")
                ∧ accId = t.account_id)
             ∨ (t.transaction_type = "Transfer"
                ∧ (accId = t.account_id ∨ some accId = t.to_account_id)))
    (row : AccountRow)
    (hacc : findAccount st2.accounts (some accId) = some row)
    (g : SavingGoalRow)
    (hg : st2.savingGoals.find? (fun g2 => g2.accountID == some accId) = some g) :
    g.currentAmount = row.balance := by
  cases hv : Transaction.validate t with
  | error m =>
    unfold create_transaction at hrun
    rw [hv] at hrun
    simp at hrun
  | ok u =>
  cases u
  obtain ⟨-, htys, -, htr⟩ := validate_ok_facts hv
  rcases htys with hty | hty | hty
  · -- Income
    have haccid : accId = t.account_id := by
      rcases htouch with ⟨-, h⟩ | ⟨h2, -⟩
      · exact h
      · rw [hty] at h2
        exact absurd h2 (by decide)
    subst haccid
    obtain ⟨mid, hfull, hmidg⟩ := income_committed_general st t hv hty
    rw [hfull, Prod.mk.injEq] at hrun
    obtain ⟨-, hst2⟩ := hrun
    subst hst2
    rw [sync_accounts] at hacc
    cases hg0 : mid.savingGoals.find? (fun g2 => g2.accountID == some t.account_id) with
    | none =>
      rw [sync_noop_goal mid _ hg0] at hg
      simp [hg0] at hg
    | some g0 =>
      have h1 := sync_goal_found mid (some t.account_id) row hacc g0 hg0
      rw [h1] at hg
      injection hg with h
      rw [← h]
  · -- Expense
    have haccid : accId = t.account_id := by
      rcases htouch with ⟨-, h⟩ | ⟨h2, -⟩
      · exact h
      · rw [hty] at h2
        exact absurd h2 (by decide)
    subst haccid
    cases hAsrc : findAccount st.accounts (some t.account_id) with
    | none =>
      unfold create_transaction at hrun
      rw [hv] at hrun
      unfold create_transaction_body at hrun
      simp +decide [hty, hAsrc] at hrun
    | some rowSrc =>
      by_cases hlt : rowSrc.balance < t.amount
      · rw [create_transaction_insufficient st t rowSrc hv (Or.inl hty) hAsrc hlt] at hrun
        simp at hrun
      · obtain ⟨mid, hfull, hmidg⟩ :=
          expense_committed_general st t rowSrc hv hty hAsrc (not_lt.mp hlt)
        rw [hfull, Prod.mk.injEq] at hrun
        obtain ⟨-, hst2⟩ := hrun
        subst hst2
        rw [sync_accounts] at hacc
        cases hg0 : mid.savingGoals.find?
            (fun g2 => g2.accountID == some t.account_id) with
        | none =>
          rw [sync_noop_goal mid _ hg0] at hg
          simp [hg0] at hg
        | some g0 =>
          have h1 := sync_goal_found mid (some t.account_id) row hacc g0 hg0
          rw [h1] at hg
          injection hg with h
          rw [← h]
  · -- Transfer
    obtain ⟨-, hneq⟩ := htr hty
    cases hAsrc : findAccount st.accounts (some t.account_id) with
    | none =>
      unfold create_transaction at hrun
      rw [hv] at hrun
      unfold create_transaction_body at hrun
      simp +decide [hty, hAsrc] at hrun
    | some rowSrc =>
      by_cases hlt : rowSrc.balance < t.amount
      · rw [create_transaction_insufficient st t rowSrc hv (Or.inr hty) hAsrc hlt] at hrun
        simp at hrun
      · obtain ⟨mid, hfull, hmidg⟩ :=
          transfer_committed_general st t rowSrc hv hty hAsrc (not_lt.mp hlt)
        rw [hfull, Prod.mk.injEq] at hrun
        obtain ⟨-, hst2⟩ := hrun
        subst hst2
        rcases htouch with ⟨h2, -⟩ | ⟨-, hside⟩
        · rcases h2 with h2 | h2 <;> rw [hty] at h2 <;> exact absurd h2 (by decide)
        rcases hside with haccid | hto
        · -- source side
          subst haccid
          rw [sync_accounts, sync_accounts] at hacc
          cases hg0 : mid.savingGoals.find?
              (fun g2 => g2.accountID == some t.account_id) with
          | none =>
            rw [sync_noop_goal mid _ hg0] at hg
            have h2 := sync_goal_none_pred mid t.to_account_id (some t.account_id) hg0
            simp [h2] at hg
          | some g0 =>
            have h1 := sync_goal_found mid (some t.account_id) row hacc g0 hg0
            have hnd2 : ((update_saving_goal_from_account mid
                (some t.account_id)).savingGoals.map (fun g => g.goalID)).Nodup := by
              rw [sync_goalIDs, hmidg]
              exact hndg
            have h2 := sync_goal_skip
              (update_saving_goal_from_account mid (some t.account_id))
              t.to_account_id (some t.account_id) hnd2 hneq _ h1
            rw [h2] at hg
            injection hg with h
            rw [← h]
        · -- destination side
          rw [← hto] at hacc hg
          rw [sync_accounts] at hacc
          cases hg1 : (update_saving_goal_from_account mid
              (some t.account_id)).savingGoals.find?
                (fun g2 => g2.accountID == some accId) with
          | none =>
            rw [sync_noop_goal _ _ hg1] at hg
            simp [hg1] at hg
          | some g1 =>
            have h1 := sync_goal_found
              (update_saving_goal_from_account mid (some t.account_id))
              (some accId) row hacc g1 hg1
            rw [h1] at hg
            injection hg with h
            rw [← h]

/-- Witness for C2: committing the sample transfer leaves the goal on
the destination savings account holding exactly the account's new
balance of 50. -/
theorem goal_sync_invariant_witness :
    (sampleStore.savingGoals.map (fun g => g.goalID)).Nodup ∧
    create_transaction sampleStore sampleTransfer = (.ok 1, syncedStore) ∧
    (sampleTransfer.transaction_type = "Transfer"
      ∧ ((2 : Int) = sampleTransfer.account_id ∨ some (2 : Int) = sampleTransfer.to_account_id)) ∧
    findAccount syncedStore.accounts (some 2) = some { sampleFund with balance := 50 } ∧
    syncedStore.savingGoals.find? (fun g2 => g2.accountID == some 2)
      = some { sampleGoal with currentAmount := 50 } ∧
    ({ sampleGoal with currentAmount := 50 } : SavingGoalRow).currentAmount
      = ({ sampleFund with balance := 50 } : AccountRow).balance := by
  have hndg : (sampleStore.savingGoals.map (fun g => g.goalID)).Nodup := by
    simp [sampleStore, sampleGoal]
  have hrun : create_transaction sampleStore sampleTransfer = (.ok 1, syncedStore) := by
    norm_num [create_transaction, create_transaction_body, Transaction.validate,
      findAccount, updateBalance, update_saving_goal_from_account, optIdTruthy,
      MAX_AMOUNT, sampleStore, sampleTransfer, sampleBank, sampleFund, sampleGoal,
      sampleCategory, syncedStore]
    simp +decide
  have htouch : (sampleTransfer.transaction_type = "Income"
        ∨ sampleTransfer.transaction_type = "Expense") ∧ (2 : Int) = sampleTransfer.account_id
      ∨ sampleTransfer.transaction_type = "Transfer"
        ∧ ((2 : Int) = sampleTransfer.account_id
            ∨ some (2 : Int) = sampleTransfer.to_account_id) :=
    Or.inr ⟨rfl, Or.inr rfl⟩
  have hacc : findAccount syncedStore.accounts (some 2)
      = some { sampleFund with balance := 50 } := by
    norm_num [findAccount, syncedStore, sampleBank, sampleFund]
  have hg : syncedStore.savingGoals.find? (fun g2 => g2.accountID == some 2)
      = some { sampleGoal with currentAmount := 50 } := by
    norm_num [syncedStore, sampleGoal]
  exact ⟨hndg, hrun, ⟨rfl, Or.inr rfl⟩, hacc, hg,
    goal_sync_invariant sampleStore sampleTransfer 1 syncedStore hndg hrun 2 htouch
      { sampleFund with balance := 50 } hacc { sampleGoal with currentAmount := 50 } hg⟩

lemma budget_order_of_le (txs : List TransactionRow) (b1 b2 : BudgetRow)
    (hle : budgetRowLe txs b1 b2 = true) :
    (WARNING_THRESHOLD ≤ budgetSpent txs b2 / b2.budgetAmount →
      WARNING_THRESHOLD ≤ budgetSpent txs b1 / b1.budgetAmount ∧
      budgetSpent txs b2 / b2.budgetAmount ≤ budgetSpent txs b1 / b1.budgetAmount) ∧
    (budgetSpent txs b1 / b1.budgetAmount < WARNING_THRESHOLD →
      budgetSpent txs b2 / b2.budgetAmount < WARNING_THRESHOLD ∧
      strLe b1.endDate b2.endDate = true) := by
  unfold budgetRowLe orderKey at hle
  simp only [Bool.or_eq_true, Bool.and_eq_true, decide_eq_true_eq, beq_iff_eq] at hle
  have hm1 : (-1 : ℚ) < WARNING_THRESHOLD := by norm_num [WARNING_THRESHOLD]
  by_cases h1 : WARNING_THRESHOLD ≤ budgetSpent txs b1 / b1.budgetAmount <;>
    by_cases h2 : WARNING_THRESHOLD ≤ budgetSpent txs b2 / b2.budgetAmount <;>
    simp only [h1, h2, if_true, if_false, if_pos, if_neg, not_false_iff] at hle
  · -- both at or over threshold
    refine ⟨fun _ => ⟨h1, ?_⟩, fun hlt => absurd h1 (not_le.mpr hlt)⟩
    rcases hle with h | ⟨he, -⟩
    · exact le_of_lt h
    · exact le_of_eq he.symm
  · -- b1 over, b2 under
    exact ⟨fun hc => absurd hc h2, fun hlt => absurd h1 (not_le.mpr hlt)⟩
  · -- b1 under, b2 over: the comparator forbids this arrangement
    exfalso
    rcases hle with h | ⟨he, -⟩
    · exact absurd (lt_trans (lt_of_lt_of_le hm1 h2) h) (lt_irrefl _)
    · exact absurd (lt_of_lt_of_le hm1 (he ▸ h2)) (lt_irrefl _)
  · -- both under threshold: tied keys, ascending end date
    refine ⟨fun hc => absurd hc h2, fun _ => ⟨not_le.mp h2, ?_⟩⟩
    rcases hle with h | ⟨-, hs⟩
    · exact absurd h (lt_irrefl _)
    · exact hs

/-- C7: in the list returned by get_user_budgets_with_spending (all
budget amounts positive, as the schema CHECK enforces), every budget at
or over the 0.7 warning threshold precedes every budget below it, the
over-threshold budgets appear in order of descending spent fraction,
and the below-threshold budgets appear in order of ascending end date. -/
theorem budget_listing_order (st : DBState) (userId : Int) (now : String)
    (hpos : ∀ b ∈ st.budgets, 0 < b.budgetAmount)
    (i j : Fin (get_user_budgets_with_spending st userId now).length)
    (hij : (i : Nat) < (j : Nat)) :
    (WARNING_THRESHOLD
        ≤ ((get_user_budgets_with_spending st userId now).get j).spent_percentage →
      WARNING_THRESHOLD
        ≤ ((get_user_budgets_with_spending st userId now).get i).spent_percentage ∧
      ((get_user_budgets_with_spending st userId now).get j).spent_percentage
        ≤ ((get_user_budgets_with_spending st userId now).get i).spent_percentage) ∧
    (((get_user_budgets_with_spending st userId now).get i).spent_percentage
        < WARNING_THRESHOLD →
      ((get_user_budgets_with_spending st userId now).get j).spent_percentage
        < WARNING_THRESHOLD ∧
      strLe ((get_user_budgets_with_spending st userId now).get i).end_date
        ((get_user_budgets_with_spending st userId now).get j).end_date = true) := by
  have hpw := List.sorted_mergeSort
    (budgetRowLe_trans st.transactions) (budgetRowLe_total st.transactions)
    (st.budgets.filter (fun b => b.userID == userId && strLt now b.endDate))
  have hlen : (get_user_budgets_with_spending st userId now).length
      = ((st.budgets.filter (fun b => b.userID == userId && strLt now b.endDate)).mergeSort
          (budgetRowLe st.transactions)).length := by
    unfold get_user_budgets_with_spending
    exact List.length_map _ _
  have hi2 : (i : Nat) < ((st.budgets.filter
      (fun b => b.userID == userId && strLt now b.endDate)).mergeSort
        (budgetRowLe st.transactions)).length := hlen ▸ i.2
  have hj2 : (j : Nat) < ((st.budgets.filter
      (fun b => b.userID == userId && strLt now b.endDate)).mergeSort
        (budgetRowLe st.transactions)).length := hlen ▸ j.2
  have hle := List.pairwise_iff_get.mp hpw ⟨i, hi2⟩ ⟨j, hj2⟩ (Fin.mk_lt_mk.mpr hij)
  have hview : ∀ (k : Fin (get_user_budgets_with_spending st userId now).length)
      (hk : (k : Nat) < ((st.budgets.filter
        (fun b => b.userID == userId && strLt now b.endDate)).mergeSort
          (budgetRowLe st.transactions)).length),
      (get_user_budgets_with_spending st userId now).get k
        = budgetView st (((st.budgets.filter
            (fun b => b.userID == userId && strLt now b.endDate)).mergeSort
              (budgetRowLe st.transactions)).get ⟨k, hk⟩) := by
    intro k hk
    unfold get_user_budgets_with_spending
    rw [List.get_eq_getElem, List.getElem_map, List.get_eq_getElem]
  have hmem2 : ∀ b2 ∈ ((st.budgets.filter
      (fun b => b.userID == userId && strLt now b.endDate)).mergeSort
        (budgetRowLe st.transactions)), 0 < b2.budgetAmount := by
    intro b2 hb2
    have hmem3 := (List.mergeSort_perm (st.budgets.filter
      (fun b => b.userID == userId && strLt now b.endDate))
        (budgetRowLe st.transactions)).mem_iff.mp hb2
    exact hpos b2 (List.mem_filter.mp hmem3).1
  have hpcti : (budgetView st (((st.budgets.filter
      (fun b => b.userID == userId && strLt now b.endDate)).mergeSort
        (budgetRowLe st.transactions)).get ⟨i, hi2⟩)).spent_percentage
      = budgetSpent st.transactions (((st.budgets.filter
          (fun b => b.userID == userId && strLt now b.endDate)).mergeSort
            (budgetRowLe st.transactions)).get ⟨i, hi2⟩)
        / (((st.budgets.filter
          (fun b => b.userID == userId && strLt now b.endDate)).mergeSort
            (budgetRowLe st.transactions)).get ⟨i, hi2⟩).budgetAmount := by
    simp only [budgetView]
    rw [if_pos (hmem2 _ (List.get_mem _ _ _))]
  have hpctj : (budgetView st (((st.budgets.filter
      (fun b => b.userID == userId && strLt now b.endDate)).mergeSort
        (budgetRowLe st.transactions)).get ⟨j, hj2⟩)).spent_percentage
      = budgetSpent st.transactions (((st.budgets.filter
          (fun b => b.userID == userId && strLt now b.endDate)).mergeSort
            (budgetRowLe st.transactions)).get ⟨j, hj2⟩)
        / (((st.budgets.filter
          (fun b => b.userID == userId && strLt now b.endDate)).mergeSort
            (budgetRowLe st.transactions)).get ⟨j, hj2⟩).budgetAmount := by
    simp only [budgetView]
    rw [if_pos (hmem2 _ (List.get_mem _ _ _))]
  have hkey := budget_order_of_le st.transactions _ _ hle
  rw [hview i hi2, hview j hj2, hpcti, hpctj]
  exact hkey

lemma budgetStore2_len :
    (get_user_budgets_with_spending budgetStore2 1 sampleNow).length = 2 := by
  simp +decide [get_user_budgets_with_spending, List.length_mergeSort,
    budgetStore2, sampleStore, sampleBudget, sampleBudget2, sampleNow]

lemma budgetStore2_pos : ∀ b ∈ budgetStore2.budgets, 0 < b.budgetAmount := by
  intro b hb
  simp [budgetStore2, sampleStore] at hb
  rcases hb with h | h <;> rw [h] <;> norm_num [sampleBudget, sampleBudget2]

/-- Witness for C7: the two-budget store satisfies the hypotheses at
positions 0 and 1 of the returned list, and the theorem applies. -/
theorem budget_listing_order_witness :
    (∀ b ∈ budgetStore2.budgets, 0 < b.budgetAmount) ∧
    (((⟨0, by rw [budgetStore2_len]; norm_num⟩ :
        Fin (get_user_budgets_with_spending budgetStore2 1 sampleNow).length) : Nat)
      < ((⟨1, by rw [budgetStore2_len]; norm_num⟩ :
        Fin (get_user_budgets_with_spending budgetStore2 1 sampleNow).length) : Nat)) ∧
    ((WARNING_THRESHOLD
        ≤ ((get_user_budgets_with_spending budgetStore2 1 sampleNow).get
            ⟨1, by rw [budgetStore2_len]; norm_num⟩).spent_percentage →
      WARNING_THRESHOLD
        ≤ ((get_user_budgets_with_spending budgetStore2 1 sampleNow).get
            ⟨0, by rw [budgetStore2_len]; norm_num⟩).spent_percentage ∧
      ((get_user_budgets_with_spending budgetStore2 1 sampleNow).get
            ⟨1, by rw [budgetStore2_len]; norm_num⟩).spent_percentage
        ≤ ((get_user_budgets_with_spending budgetStore2 1 sampleNow).get
            ⟨0, by rw [budgetStore2_len]; norm_num⟩).spent_percentage) ∧
    (((get_user_budgets_with_spending budgetStore2 1 sampleNow).get
            ⟨0, by rw [budgetStore2_len]; norm_num⟩).spent_percentage
        < WARNING_THRESHOLD →
      ((get_user_budgets_with_spending budgetStore2 1 sampleNow).get
            ⟨1, by rw [budgetStore2_len]; norm_num⟩).spent_percentage
        < WARNING_THRESHOLD ∧
      strLe ((get_user_budgets_with_spending budgetStore2 1 sampleNow).get
          ⟨0, by rw [budgetStore2_len]; norm_num⟩).end_date
        ((get_user_budgets_with_spending budgetStore2 1 sampleNow).get
          ⟨1, by rw [budgetStore2_len]; norm_num⟩).end_date = true)) :=
  ⟨budgetStore2_pos, by norm_num,
    budget_listing_order budgetStore2 1 sampleNow budgetStore2_pos
      ⟨0, by rw [budgetStore2_len]; norm_num⟩
      ⟨1, by rw [budgetStore2_len]; norm_num⟩ (by norm_num)⟩

end FinanceApp
